import Mathlib

/-!
Shallow embedding of the repository's `TextureFilterInput` leaf node
(`src/impeller/entity/contents/filters/inputs/texture_filter_input.cc`),
the leaf variant of the filter-input graph contract, together with the
external geometry primitives it consumes.  Scalars are embedded as exact
rationals; shared pointers that may be null are embedded as `Option`;
a dereference of a null handle (undefined behaviour in the source) is
embedded as the `Except.error` branch of the operation.

Definitions not present under `src/` (the base class `FilterInput`'s
`GetTransform`, the `Matrix`/`Rect` geometry primitives, the sampler
formats, `Entity` and the renderer context) are modelled from the spec,
as marked on each declaration.
-/

namespace Impeller

/-- Modelled from the spec: the external 2D affine transform primitive
(spec section 2: "2D affine matrices and rectangles with a bounds-transform
operation", consumed, not reimplemented).  A point `(x, y)` is mapped to
`(m00*x + m01*y + tx, m10*x + m11*y + ty)`. -/
structure Matrix where
  m00 : ℚ
  m01 : ℚ
  m10 : ℚ
  m11 : ℚ
  tx : ℚ
  ty : ℚ
deriving DecidableEq

/-- Modelled from the spec: application of an affine matrix to a point. -/
def Matrix.apply (m : Matrix) (p : ℚ × ℚ) : ℚ × ℚ :=
  (m.m00 * p.1 + m.m01 * p.2 + m.tx, m.m10 * p.1 + m.m11 * p.2 + m.ty)

/-- Modelled from the spec: matrix composition.  `a.mul b` acts as `a`
after `b`, matching the source's `operator*` on transforms. -/
def Matrix.mul (a b : Matrix) : Matrix where
  m00 := a.m00 * b.m00 + a.m01 * b.m10
  m01 := a.m00 * b.m01 + a.m01 * b.m11
  m10 := a.m10 * b.m00 + a.m11 * b.m10
  m11 := a.m10 * b.m01 + a.m11 * b.m11
  tx := a.m00 * b.tx + a.m01 * b.ty + a.tx
  ty := a.m10 * b.tx + a.m11 * b.ty + a.ty

/-- Modelled from the spec: the identity transform. -/
def Matrix.identity : Matrix :=
  ⟨1, 0, 0, 1, 0, 0⟩

/-- Modelled from the spec: determinant of the linear part; the affine map
is invertible ("non-degenerate") iff it is nonzero. -/
def Matrix.det (m : Matrix) : ℚ :=
  m.m00 * m.m11 - m.m01 * m.m10

/-- Modelled from the spec: a uniform scale transform (used by the spec's
scenario "entity transform = uniform scale 0.5"). -/
def Matrix.scale (s : ℚ) : Matrix :=
  ⟨s, 0, 0, s, 0, 0⟩

/-- Modelled from the spec: the external axis-aligned rectangle primitive,
stored as origin plus size as in the source's `Rect`. -/
structure Rect where
  x : ℚ
  y : ℚ
  w : ℚ
  h : ℚ
deriving DecidableEq

/-- Modelled from the spec: `Rect::MakeSize`, the rectangle `[0, 0, w, h]`
with origin at zero (spec section 4.2: "take the rectangle `[0,0, width,
height]` of the texture's pixel dimensions"). -/
def Rect.makeSize (w h : ℚ) : Rect :=
  ⟨0, 0, w, h⟩

/-- Modelled from the spec: `Rect::TransformBounds` — transform the four
corners of the rectangle by the matrix and return the axis-aligned bounding
rectangle of the transformed corners (spec section 4.2). -/
def Rect.transformBounds (r : Rect) (m : Matrix) : Rect :=
  let p0 := m.apply (r.x, r.y)
  let p1 := m.apply (r.x + r.w, r.y)
  let p2 := m.apply (r.x, r.y + r.h)
  let p3 := m.apply (r.x + r.w, r.y + r.h)
  let xmin := min (min p0.1 p1.1) (min p2.1 p3.1)
  let ymin := min (min p0.2 p1.2) (min p2.2 p3.2)
  let xmax := max (max p0.1 p1.1) (max p2.1 p3.1)
  let ymax := max (max p0.2 p1.2) (max p2.2 p3.2)
  ⟨xmin, ymin, xmax - xmin, ymax - ymin⟩

/-- Modelled from the spec: the backing texture resource handle interface —
"opaque shared handles exposing pixel width/height and mip-level count"
(spec section 6); only these read-only attributes are consumed. -/
structure Texture where
  width : ℕ
  height : ℕ
  mipCount : ℕ
deriving DecidableEq

/-- Modelled from the spec: mip filter mode of a sampler
(`impeller/renderer/formats.h` is not under `src/`); `linear` is the
source's `MipFilter::kLinear`, `base` the default "no mip filtering". -/
inductive MipFilter where
  | base
  | linear
deriving DecidableEq

/-- Modelled from the spec: the sampler descriptor — "{ filter mode, mip
filter mode, optional human-readable label }" (spec section 3); only the
mip filter and the label are touched by the code under `src/`. -/
structure SamplerDescriptor where
  mip_filter : MipFilter
  label : Option String
deriving DecidableEq

/-- Modelled from the spec: the default sampler descriptor — "Default is
nearest/bilinear, no mip filtering" and no label attached. -/
def SamplerDescriptor.default : SamplerDescriptor :=
  ⟨MipFilter.base, none⟩

/-- Modelled from the spec: the `Snapshot` value — a renderable image
handle (shared, so possibly null in the embedding), its placement
transform, and a sampling-mode descriptor (spec section 3). -/
structure Snapshot where
  texture : Option Texture
  transform : Matrix
  sampler_descriptor : SamplerDescriptor
deriving DecidableEq

/-- Modelled from the spec: the caller-supplied `Entity` — "opaque, exposes
at minimum an accumulated 2D affine transform. The core only reads this
field" (spec section 6). -/
structure Entity where
  transform : Matrix
deriving DecidableEq

/-- Modelled from the spec: `Entity::GetTransformation`, the accessor for
the accumulated transform. -/
def Entity.GetTransformation (e : Entity) : Matrix :=
  e.transform

/-- Modelled from the spec: the renderer context (`ContentContext`) —
"opaque handle passed through unchanged" (spec section 6).  It carries an
arbitrary payload so that noninterference statements are not vacuous. -/
structure ContentContext where
  payload : ℕ
deriving DecidableEq

/-- Modelled from the spec: the `FilterInput::Variant` tagged union over
the concrete producers — a shared texture handle or a shared handle to an
interior filter node (spec section 3).  The interior handle is opaque at
this leaf. -/
inductive Variant where
  | texture (handle : Option Texture)
  | filterContents
deriving DecidableEq

/-- Embedding of a dereference of a null shared handle: undefined
behaviour in the source, surfaced as an explicit error value. -/
inductive NullDeref where
  | nullTexture
deriving DecidableEq

/-- The leaf node state (`texture_filter_input.h`/`.cc`): an owned-shared
texture handle (possibly null — the embedding of `std::shared_ptr`) and
the fixed local transform. -/
structure TextureFilterInput where
  texture_ : Option Texture
  local_transform_ : Matrix
deriving DecidableEq

/-- `TextureFilterInput::TextureFilterInput` (source lines 13–15): the
member-initializer list stores the handle and the local transform
unconditionally; the body is empty, so no validation occurs. -/
def TextureFilterInput.ctor (texture : Option Texture)
    (local_transform : Matrix) : TextureFilterInput :=
  ⟨texture, local_transform⟩

/-- `TextureFilterInput::GetInput` (source lines 19–21): returns the held
handle wrapped in the `Texture` variant of the tagged union. -/
def TextureFilterInput.GetInput (f : TextureFilterInput) : Variant :=
  Variant.texture f.texture_

/-- `TextureFilterInput::GetLocalTransform` (source lines 41–43): returns
the fixed local transform; the `entity` argument is not consulted. -/
def TextureFilterInput.GetLocalTransform (f : TextureFilterInput)
    (_entity : Entity) : Matrix :=
  f.local_transform_

/-- Modelled from the spec: the base class `FilterInput::GetTransform` is
not under `src/`; per spec section 4.2 step 1 it computes "`transform =
GetLocalTransform(entity) ∘ entity.accumulated_transform` (local transform
applied first)", i.e. the entity's accumulated transform composed after
the node's local transform. -/
def TextureFilterInput.GetTransform (f : TextureFilterInput)
    (entity : Entity) : Matrix :=
  (entity.GetTransformation).mul (f.GetLocalTransform entity)

/-- `TextureFilterInput::GetSnapshot` (source lines 23–33): builds a
snapshot from the held handle and the composed transform, then, when the
texture's mip count exceeds one, overrides the sampler descriptor with a
trilinear label and a linear mip filter; always returns an engaged
optional.  The body dereferences the handle (`texture_->GetMipCount()`),
so a null handle is the error branch. -/
def TextureFilterInput.GetSnapshot (f : TextureFilterInput)
    (_renderer : ContentContext) (entity : Entity) :
    Except NullDeref (Option Snapshot) :=
  match f.texture_ with
  | none => Except.error NullDeref.nullTexture
  | some t =>
    let snapshot : Snapshot :=
      ⟨f.texture_, f.GetTransform entity, SamplerDescriptor.default⟩
    let snapshot : Snapshot :=
      if t.mipCount > 1 then
        ⟨snapshot.texture, snapshot.transform,
          ⟨MipFilter.linear, some "TextureFilterInput Trilinear Sampler"⟩⟩
      else snapshot
    Except.ok (some snapshot)

/-- `TextureFilterInput::GetCoverage` (source lines 35–39): the bounds of
the rectangle `[0, 0, width, height]` of the texture's size transformed by
the same composed transform as `GetSnapshot` uses.  The body dereferences
the handle (`texture_->GetSize()`), so a null handle is the error
branch. -/
def TextureFilterInput.GetCoverage (f : TextureFilterInput)
    (entity : Entity) : Except NullDeref (Option Rect) :=
  match f.texture_ with
  | none => Except.error NullDeref.nullTexture
  | some t =>
    Except.ok (some ((Rect.makeSize t.width t.height).transformBounds
      (f.GetTransform entity)))

/-- State-passing transcription of the `const` method
`TextureFilterInput::GetSnapshot`: the body contains no assignment to any
member, so the post-state rebuilds every field from the unmodified
pre-state fields. -/
def TextureFilterInput.GetSnapshotSt (f : TextureFilterInput)
    (renderer : ContentContext) (entity : Entity) :
    Except NullDeref (Option Snapshot) × TextureFilterInput :=
  (f.GetSnapshot renderer entity, ⟨f.texture_, f.local_transform_⟩)

/-- State-passing transcription of the `const` method
`TextureFilterInput::GetCoverage`; no member is assigned. -/
def TextureFilterInput.GetCoverageSt (f : TextureFilterInput)
    (entity : Entity) :
    Except NullDeref (Option Rect) × TextureFilterInput :=
  (f.GetCoverage entity, ⟨f.texture_, f.local_transform_⟩)

/-- State-passing transcription of the `const` method
`TextureFilterInput::GetLocalTransform`; no member is assigned. -/
def TextureFilterInput.GetLocalTransformSt (f : TextureFilterInput)
    (entity : Entity) : Matrix × TextureFilterInput :=
  (f.GetLocalTransform entity, ⟨f.texture_, f.local_transform_⟩)

/-- State-passing transcription of the `const` method
`TextureFilterInput::GetInput`; no member is assigned. -/
def TextureFilterInput.GetInputSt (f : TextureFilterInput) :
    Variant × TextureFilterInput :=
  (f.GetInput, ⟨f.texture_, f.local_transform_⟩)

/-! Helper lemmas shared by the claim theorems. -/

/-- Every engaged snapshot produced by `GetSnapshot` carries the composed
transform of `GetTransform` and the held texture handle as its image,
whichever branch the mip-count test takes. -/
theorem TextureFilterInput.getSnapshot_ok (f : TextureFilterInput)
    (r : ContentContext) (e : Entity) (s : Snapshot)
    (h : f.GetSnapshot r e = Except.ok (some s)) :
    s.transform = f.GetTransform e ∧ s.texture = f.texture_ := by
  unfold TextureFilterInput.GetSnapshot at h
  cases hx : f.texture_ with
  | none => simp [hx] at h
  | some t =>
    simp only [hx] at h
    by_cases hm : t.mipCount > 1 <;>
      simp [hm] at h <;> simp [← h, hx]

/-- Every call of `GetSnapshot` on an instance holding a valid handle
reduces, branch by branch of the mip test, to an engaged snapshot whose
image is the held handle. -/
theorem TextureFilterInput.getSnapshot_some_exists (t : Texture)
    (lt : Matrix) (r : ContentContext) (e : Entity) :
    ∃ s : Snapshot,
      (TextureFilterInput.ctor (some t) lt).GetSnapshot r e =
        Except.ok (some s) ∧ s.texture = some t := by
  by_cases hm : t.mipCount > 1
  · refine ⟨⟨some t, (TextureFilterInput.ctor (some t) lt).GetTransform e,
      ⟨MipFilter.linear, some ("TextureFilterInput Trilinear Sampler")⟩⟩,
      ?_, rfl⟩
    simp [TextureFilterInput.GetSnapshot, TextureFilterInput.ctor, hm]
  · refine ⟨⟨some t, (TextureFilterInput.ctor (some t) lt).GetTransform e,
      SamplerDescriptor.default⟩, ?_, rfl⟩
    simp [TextureFilterInput.GetSnapshot, TextureFilterInput.ctor, hm]

/-- The determinant of the modelled affine composition is the product of
the determinants. -/
theorem Matrix.det_mul (a b : Matrix) :
    (a.mul b).det = a.det * b.det := by
  simp only [Matrix.mul, Matrix.det]
  ring

/-- The bounding rectangle of the transformed corners never has negative
width or height: its extents are a max minus a min over the same four
coordinates. -/
theorem Rect.transformBounds_nonneg (r : Rect) (m : Matrix) :
    0 ≤ (r.transformBounds m).w ∧ 0 ≤ (r.transformBounds m).h := by
  unfold Rect.transformBounds
  constructor <;> simp only [sub_nonneg] <;>
    exact le_trans (le_trans (min_le_left _ _) (min_le_left _ _))
      (le_trans (le_max_left _ _) (le_max_left _ _))

/-! Claim theorems. -/

/-- C3 counterexample: constructing with a null texture handle succeeds —
the member-initializer list stores the null handle and an instance
results, holding `none`; the failure is NOT raised at construction but at
first use, where `GetSnapshot` dereferences the null handle.  This
refutes "for every null input handle no TextureFilterInput instance
results". -/
theorem ctor_null_accepted_counterexample :
    (TextureFilterInput.ctor none Matrix.identity).texture_ = none ∧
    (TextureFilterInput.ctor none Matrix.identity).GetSnapshot ⟨0⟩
      ⟨Matrix.identity⟩ = Except.error NullDeref.nullTexture :=
  ⟨rfl, rfl⟩

/-- C3 (amended): construction stores the supplied handle and local
transform unconditionally — no validation occurs, so an instance results
even for a null handle; the failure is deferred to first use, where
`GetSnapshot` and `GetCoverage` dereference the null handle. -/
theorem ctor_stores_unchecked (t : Option Texture) (lt : Matrix)
    (r : ContentContext) (e : Entity) :
    TextureFilterInput.ctor t lt = ⟨t, lt⟩ ∧
    (TextureFilterInput.ctor none lt).GetSnapshot r e =
      Except.error NullDeref.nullTexture ∧
    (TextureFilterInput.ctor none lt).GetCoverage e =
      Except.error NullDeref.nullTexture :=
  ⟨rfl, rfl, rfl⟩

/-- C4: for every instance holding a valid (non-null) texture handle,
every renderer context and every entity, `GetSnapshot` returns a present
snapshot — never the absent value — and the snapshot's image is the held
texture handle. -/
theorem getSnapshot_total (t : Texture) (lt : Matrix)
    (r : ContentContext) (e : Entity) :
    ∃ s : Snapshot,
      (TextureFilterInput.ctor (some t) lt).GetSnapshot r e =
        Except.ok (some s) ∧ s.texture = some t :=
  TextureFilterInput.getSnapshot_some_exists t lt r e

/-- C7: `GetLocalTransform` does not consult the entity argument — any two
entities give the same result, namely the local transform fixed at
construction. -/
theorem getLocalTransform_entity_independent (f : TextureFilterInput)
    (e1 e2 : Entity) :
    f.GetLocalTransform e1 = f.GetLocalTransform e2 ∧
    f.GetLocalTransform e1 = f.local_transform_ :=
  ⟨rfl, rfl⟩

/-- C8: each operation leaves the instance's observable state unchanged
(the state-passing transcriptions return the pre-state), and a second
call of `GetSnapshot` or `GetCoverage` on the post-state with the same
arguments yields a bit-identical result. -/
theorem ops_idempotent_and_pure (f : TextureFilterInput)
    (r : ContentContext) (e : Entity) :
    (f.GetSnapshotSt r e).2 = f ∧
    (f.GetCoverageSt e).2 = f ∧
    (f.GetLocalTransformSt e).2 = f ∧
    f.GetInputSt.2 = f ∧
    ((f.GetSnapshotSt r e).2).GetSnapshot r e = (f.GetSnapshotSt r e).1 ∧
    ((f.GetCoverageSt e).2).GetCoverage e = (f.GetCoverageSt e).1 :=
  ⟨rfl, rfl, rfl, rfl, rfl, rfl⟩

/-- C10: `GetSnapshot` never reads the renderer context — any two
contexts produce identical results, so the snapshot is fully determined
by the held texture, the construction-time local transform, and the
entity. -/
theorem getSnapshot_renderer_noninterference (f : TextureFilterInput)
    (r1 r2 : ContentContext) (e : Entity) :
    f.GetSnapshot r1 e = f.GetSnapshot r2 e :=
  rfl

/-- C5 (amended): for every instance holding a valid texture handle,
`GetCoverage` is total — it returns an engaged bounding rectangle (never
an error and never the absent no-coverage value, degenerate or not), and
that rectangle never has negative width or height. -/
theorem getCoverage_total_nonneg (t : Texture) (lt : Matrix) (e : Entity) :
    ∃ rect : Rect,
      (TextureFilterInput.ctor (some t) lt).GetCoverage e =
        Except.ok (some rect) ∧ 0 ≤ rect.w ∧ 0 ≤ rect.h :=
  ⟨_, rfl, (Rect.transformBounds_nonneg _ _).1,
    (Rect.transformBounds_nonneg _ _).2⟩

/-- C1: for every instance with a valid texture of positive pixel
dimensions and every entity whose accumulated transform is
non-degenerate, `GetCoverage` returns exactly the axis-aligned bounding
rectangle of the snapshot transform returned by `GetSnapshot` applied to
the rectangle `[0, 0, w, h]`, bit for bit in exact arithmetic. -/
theorem getCoverage_agrees_with_snapshot (t : Texture) (lt : Matrix)
    (r : ContentContext) (e : Entity)
    (hdet : e.transform.det ≠ 0) (hw : 0 < t.width) (hh : 0 < t.height) :
    (TextureFilterInput.ctor (some t) lt).GetCoverage e =
      ((TextureFilterInput.ctor (some t) lt).GetSnapshot r e).map
        (Option.map fun s : Snapshot =>
          (Rect.makeSize t.width t.height).transformBounds s.transform) := by
  unfold TextureFilterInput.GetCoverage TextureFilterInput.GetSnapshot
  by_cases hm : t.mipCount > 1 <;>
    simp [TextureFilterInput.ctor, hm, Except.map]

/-- C1 witness: the agreement instantiated at a 3×2 single-mip texture,
identity local transform and identity (hence non-degenerate) entity
transform. -/
theorem getCoverage_agrees_with_snapshot_witness :
    (TextureFilterInput.ctor (some ⟨3, 2, 1⟩) Matrix.identity).GetCoverage
        ⟨Matrix.identity⟩ =
      ((TextureFilterInput.ctor (some ⟨3, 2, 1⟩)
          Matrix.identity).GetSnapshot ⟨0⟩ ⟨Matrix.identity⟩).map
        (Option.map fun s : Snapshot =>
          (Rect.makeSize (3 : ℕ) (2 : ℕ)).transformBounds s.transform) :=
  getCoverage_agrees_with_snapshot ⟨3, 2, 1⟩ Matrix.identity ⟨0⟩
    ⟨Matrix.identity⟩
    (by norm_num [Matrix.det, Matrix.identity]) (by norm_num) (by norm_num)

/-- C2: the snapshot returned for a valid texture has a linear mip filter
iff the mip-level count exceeds one; in that case the sampler carries a
non-empty diagnostic label, and otherwise the sampler descriptor is left
at its default. -/
theorem getSnapshot_mip_policy (t : Texture) (lt : Matrix)
    (r : ContentContext) (e : Entity) (s : Snapshot)
    (h : (TextureFilterInput.ctor (some t) lt).GetSnapshot r e =
      Except.ok (some s)) :
    (s.sampler_descriptor.mip_filter = MipFilter.linear ↔ 1 < t.mipCount) ∧
    (1 < t.mipCount →
      ∃ str : String, s.sampler_descriptor.label = some str ∧ str ≠ "") ∧
    (t.mipCount ≤ 1 → s.sampler_descriptor = SamplerDescriptor.default) := by
  unfold TextureFilterInput.GetSnapshot at h
  by_cases hm : t.mipCount > 1
  · simp [TextureFilterInput.ctor, hm] at h
    subst h
    exact ⟨by simp [hm],
      fun _ => ⟨"TextureFilterInput Trilinear Sampler", rfl, by decide⟩,
      fun hle => absurd hm (by omega)⟩
  · simp [TextureFilterInput.ctor, hm] at h
    subst h
    exact ⟨by simp [SamplerDescriptor.default]; omega,
      fun hgt => absurd hgt hm, fun _ => rfl⟩

/-- C2 witness: the mip policy instantiated at a 10×10 texture with mip
count 4 under identity transforms; the hypothesis is discharged by
evaluating `GetSnapshot` there. -/
theorem getSnapshot_mip_policy_witness :
    ((Snapshot.mk (some ⟨10, 10, 4⟩)
        ((TextureFilterInput.ctor (some ⟨10, 10, 4⟩)
          Matrix.identity).GetTransform ⟨Matrix.identity⟩)
        ⟨MipFilter.linear, some ("TextureFilterInput Trilinear Sampler")⟩
      ).sampler_descriptor.mip_filter = MipFilter.linear ↔
        1 < (4 : ℕ)) ∧
    (1 < (4 : ℕ) →
      ∃ str : String,
        (Snapshot.mk (some ⟨10, 10, 4⟩)
          ((TextureFilterInput.ctor (some ⟨10, 10, 4⟩)
            Matrix.identity).GetTransform ⟨Matrix.identity⟩)
          ⟨MipFilter.linear, some ("TextureFilterInput Trilinear Sampler")⟩
        ).sampler_descriptor.label = some str ∧ str ≠ "") ∧
    ((4 : ℕ) ≤ 1 →
      (Snapshot.mk (some ⟨10, 10, 4⟩)
        ((TextureFilterInput.ctor (some ⟨10, 10, 4⟩)
          Matrix.identity).GetTransform ⟨Matrix.identity⟩)
        ⟨MipFilter.linear, some ("TextureFilterInput Trilinear Sampler")⟩
      ).sampler_descriptor = SamplerDescriptor.default) :=
  getSnapshot_mip_policy ⟨10, 10, 4⟩ Matrix.identity ⟨0⟩ ⟨Matrix.identity⟩ _
    (by simp [TextureFilterInput.GetSnapshot, TextureFilterInput.ctor])

/-- C9 counterexample: an entity whose accumulated transform is the zero
matrix is accepted without validation and yields a snapshot whose
transform has determinant zero — not invertible.  This refutes "the
snapshot's transform matrix is invertible for any caller-supplied
entity". -/
theorem getSnapshot_singular_transform_counterexample :
    (TextureFilterInput.ctor (some ⟨1, 1, 1⟩) Matrix.identity).GetSnapshot
        ⟨0⟩ ⟨⟨0, 0, 0, 0, 0, 0⟩⟩ =
      Except.ok (some ⟨some ⟨1, 1, 1⟩,
        Matrix.mul ⟨0, 0, 0, 0, 0, 0⟩ Matrix.identity,
        SamplerDescriptor.default⟩) ∧
    (Matrix.mul ⟨0, 0, 0, 0, 0, 0⟩ Matrix.identity).det = 0 := by
  constructor
  · simp [TextureFilterInput.GetSnapshot, TextureFilterInput.ctor,
      TextureFilterInput.GetTransform, Entity.GetTransformation,
      TextureFilterInput.GetLocalTransform]
  · norm_num [Matrix.mul, Matrix.det, Matrix.identity]

/-- C9 (amended): the snapshot's transform is exactly the entity's
accumulated transform composed with the local transform, its determinant
is the product of the two factors' determinants, and it is invertible
precisely when both factors are — no validation makes it invertible
unconditionally. -/
theorem getSnapshot_transform_det (t : Texture) (lt : Matrix)
    (r : ContentContext) (e : Entity) (s : Snapshot)
    (h : (TextureFilterInput.ctor (some t) lt).GetSnapshot r e =
      Except.ok (some s)) :
    s.transform = Matrix.mul e.transform lt ∧
    s.transform.det = e.transform.det * lt.det ∧
    (s.transform.det ≠ 0 ↔ (e.transform.det ≠ 0 ∧ lt.det ≠ 0)) := by
  have htr : s.transform = Matrix.mul e.transform lt :=
    (TextureFilterInput.getSnapshot_ok _ r e s h).1
  refine ⟨htr, ?_, ?_⟩
  · rw [htr, Matrix.det_mul]
  · rw [htr, Matrix.det_mul]
    exact mul_ne_zero_iff

/-- C9 witness: the determinant relation instantiated at a 1×1 single-mip
texture with identity local and entity transforms. -/
theorem getSnapshot_transform_det_witness :
    ((Snapshot.mk (some ⟨1, 1, 1⟩)
        ((TextureFilterInput.ctor (some ⟨1, 1, 1⟩)
          Matrix.identity).GetTransform ⟨Matrix.identity⟩)
        SamplerDescriptor.default).transform =
      Matrix.mul Matrix.identity Matrix.identity) ∧
    ((Snapshot.mk (some ⟨1, 1, 1⟩)
        ((TextureFilterInput.ctor (some ⟨1, 1, 1⟩)
          Matrix.identity).GetTransform ⟨Matrix.identity⟩)
        SamplerDescriptor.default).transform.det =
      Matrix.identity.det * Matrix.identity.det) ∧
    ((Snapshot.mk (some ⟨1, 1, 1⟩)
        ((TextureFilterInput.ctor (some ⟨1, 1, 1⟩)
          Matrix.identity).GetTransform ⟨Matrix.identity⟩)
        SamplerDescriptor.default).transform.det ≠ 0 ↔
      (Matrix.identity.det ≠ 0 ∧ Matrix.identity.det ≠ 0)) :=
  getSnapshot_transform_det ⟨1, 1, 1⟩ Matrix.identity ⟨0⟩ ⟨Matrix.identity⟩
    _ (by simp [TextureFilterInput.GetSnapshot, TextureFilterInput.ctor])

/-- C5 counterexample: a non-invertible caller-supplied transform (it
collapses the plane onto the diagonal, determinant zero) does not yield
an empty/no-coverage value: `GetCoverage` returns an engaged rectangle of
positive width and height — the bounding box of the collapsed corners. -/
theorem getCoverage_degenerate_counterexample :
    Matrix.det ⟨1, 0, 1, 0, 0, 0⟩ = 0 ∧
    (TextureFilterInput.ctor (some ⟨2, 2, 1⟩) Matrix.identity).GetCoverage
        ⟨⟨1, 0, 1, 0, 0, 0⟩⟩ = Except.ok (some ⟨0, 0, 2, 2⟩) ∧
    (0 : ℚ) < 2 ∧ (0 : ℚ) < 2 := by
  refine ⟨by norm_num [Matrix.det], ?_, by norm_num, by norm_num⟩
  norm_num [TextureFilterInput.GetCoverage, TextureFilterInput.ctor,
    TextureFilterInput.GetTransform, Entity.GetTransformation,
    TextureFilterInput.GetLocalTransform, Matrix.mul, Matrix.identity,
    Matrix.apply, Rect.makeSize, Rect.transformBounds, min_def, max_def]

/-- C6: the spec's two concrete scenarios — a 100×50 mip-1 texture under
identity transforms gives coverage `(0,0,100,50)`, an identity snapshot
transform and the default sampler; the same texture with mip count 4
under a uniform scale-0.5 entity transform gives coverage `(0,0,50,25)`
and a snapshot with linear mip filter and a non-empty diagnostic
label. -/
theorem concrete_scenarios :
    (TextureFilterInput.ctor (some ⟨100, 50, 1⟩)
        Matrix.identity).GetCoverage ⟨Matrix.identity⟩ =
      Except.ok (some ⟨0, 0, 100, 50⟩) ∧
    (TextureFilterInput.ctor (some ⟨100, 50, 1⟩)
        Matrix.identity).GetSnapshot ⟨0⟩ ⟨Matrix.identity⟩ =
      Except.ok (some ⟨some ⟨100, 50, 1⟩, Matrix.identity,
        SamplerDescriptor.default⟩) ∧
    (TextureFilterInput.ctor (some ⟨100, 50, 4⟩)
        Matrix.identity).GetCoverage ⟨Matrix.scale (1 / 2)⟩ =
      Except.ok (some ⟨0, 0, 50, 25⟩) ∧
    (TextureFilterInput.ctor (some ⟨100, 50, 4⟩)
        Matrix.identity).GetSnapshot ⟨0⟩ ⟨Matrix.scale (1 / 2)⟩ =
      Except.ok (some ⟨some ⟨100, 50, 4⟩, Matrix.scale (1 / 2),
        ⟨MipFilter.linear, some ("TextureFilterInput Trilinear Sampler")⟩⟩) ∧
    ("TextureFilterInput Trilinear Sampler" : String) ≠ "" := by
  refine ⟨?_, ?_, ?_, ?_, by decide⟩ <;>
    norm_num [TextureFilterInput.GetCoverage, TextureFilterInput.GetSnapshot,
      TextureFilterInput.ctor, TextureFilterInput.GetTransform,
      Entity.GetTransformation, TextureFilterInput.GetLocalTransform,
      Matrix.mul, Matrix.identity, Matrix.scale, Matrix.apply,
      Rect.makeSize, Rect.transformBounds, SamplerDescriptor.default,
      min_def, max_def]

end Impeller
